import Mathlib

/-!
Shallow embedding of the distributed mutual-exclusion node implemented in the
Go package `peer` (file `src/peer/peer.go`, first variant, the one the build
compiles).  The `Node` struct becomes `NodeState`; each Go method becomes a
pure Lean function from the pre-state (plus the data the method reads from the
network) to the post-state together with the messages the method emits.  The
Lamport clock is a Go `uint64`, so every increment is taken modulo `2 ^ 64`.
-/

namespace DistMutex

/-- Modulus of the Go `uint64` type: the node's Lamport clock and all message
timestamps live below this bound and wrap around at it. -/
def U64 : Nat := 2 ^ 64

/-- Wire message `AccessRequest` from `stc/mutex.proto`: `node_id`,
`lamport_timestamp`. -/
structure AccessRequest where
  nodeId : String
  lamportTimestamp : Nat
deriving DecidableEq

/-- Wire message `AccessResponse` from `stc/mutex.proto`: `granted`,
`lamport_timestamp`. -/
structure AccessResponse where
  granted : Bool
  lamportTimestamp : Nat
deriving DecidableEq

/-- Wire message `ReleaseRequest` from `stc/mutex.proto`: `node_id`,
`lamport_timestamp`. -/
structure ReleaseRequest where
  nodeId : String
  lamportTimestamp : Nat
deriving DecidableEq

/-- The mutable fields of the Go `Node` struct (peer.go lines 16-31).  The
`container/list` of deferred responses is a `List String` whose head is the
list's front; `CurrentRequest`, a nullable pointer in Go, is an `Option`.
The gRPC client map, the mutexes and the `Release` channel are transport
machinery and are modelled at the call sites that use them. -/
structure NodeState where
  id : String
  address : String
  lamportClock : Nat
  wantCS : Bool
  inCS : Bool
  deferredResponses : List String
  responseCount : Nat
  currentRequest : Option AccessRequest
deriving DecidableEq

/-- `NewNode` (peer.go lines 34-43): zero clock, empty deferred list, no
current request, both state flags down (state RELEASED). -/
def NewNode (id address : String) : NodeState :=
  { id := id
    address := address
    lamportClock := 0
    wantCS := false
    inCS := false
    deferredResponses := []
    responseCount := 0
    currentRequest := none }

/-- `UpdateLamportClock` (peer.go lines 167-176): if the message timestamp is
larger, adopt it, then increment; the Go `++` on a `uint64` wraps modulo
`2 ^ 64`.  The value the Go method returns is the new `lamportClock` field. -/
def UpdateLamportClock (n : NodeState) (msgTimestamp : Nat) : NodeState :=
  let c := if n.lamportClock < msgTimestamp then msgTimestamp else n.lamportClock
  { n with lamportClock := (c + 1) % U64 }

/-- `GetLamportClock` (peer.go lines 178-183): increment the clock (wrapping
modulo `2 ^ 64`); the value the Go method returns is the new `lamportClock`
field. -/
def GetLamportClock (n : NodeState) : NodeState :=
  { n with lamportClock := (n.lamportClock + 1) % U64 }

/-- `isHigherPriority` (peer.go lines 185-193): both arguments are nullable
pointers; a `nil` on either side yields `false`.  Otherwise lower timestamp
wins, and on equal timestamps the lexicographically lower node id wins. -/
def isHigherPriority : Option AccessRequest → Option AccessRequest → Bool
  | none, _ => false
  | some _, none => false
  | some r1, some r2 =>
    if r1.lamportTimestamp = r2.lamportTimestamp then
      decide (r1.nodeId < r2.nodeId)
    else
      decide (r1.lamportTimestamp < r2.lamportTimestamp)

/-- The defer condition of `RequestAccess` (peer.go line 66) as a function of
the snapshot fields it reads: `n.InCS || (n.WantCS && n.isHigherPriority(n.CurrentRequest, req))`. -/
def deferSnapshot (inCS wantCS : Bool) (currentRequest : Option AccessRequest)
    (req : AccessRequest) : Bool :=
  inCS || (wantCS && isHigherPriority currentRequest (some req))

/-- The defer condition of `RequestAccess` evaluated on a node state. -/
def deferCond (n : NodeState) (req : AccessRequest) : Bool :=
  deferSnapshot n.inCS n.wantCS n.currentRequest req

/-- Result of one invocation of the `RequestAccess` handler: the node
post-state, the `AccessResponse` returned to the caller, and the
`ReleaseAccess` RPC (recipient id plus message) that the deferred
`SendReleaseMSG` call issues after the response, when the handler takes the
non-defer branch. -/
structure RequestAccessResult where
  node : NodeState
  resp : AccessResponse
  releaseSent : Option (String × ReleaseRequest)
deriving DecidableEq

/-- `RequestAccess` handler (peer.go lines 57-74).  It merges the request
timestamp into the clock; if the node is in the CS, or wants the CS with a
strictly higher-priority own request, it pushes the requester id at the back
of the deferred list and returns `Granted: false`.  Otherwise it schedules
`SendReleaseMSG(req.NodeId, ..., timestamp)` to run after the response and
still returns `Granted: false`. -/
def RequestAccess (n : NodeState) (req : AccessRequest) : RequestAccessResult :=
  let n1 := UpdateLamportClock n req.lamportTimestamp
  let timestamp := n1.lamportClock
  if deferCond n1 req then
    { node := { n1 with deferredResponses := n1.deferredResponses ++ [req.nodeId] }
      resp := { granted := false, lamportTimestamp := timestamp }
      releaseSent := none }
  else
    { node := n1
      resp := { granted := false, lamportTimestamp := timestamp }
      releaseSent := some (req.nodeId, { nodeId := n1.id, lamportTimestamp := timestamp }) }

/-- Result of one invocation of the `ReleaseAccess` handler: node post-state,
the response fields, and the boolean pushed onto the node's `Release`
channel. -/
structure ReleaseAccessResult where
  node : NodeState
  acknowledged : Bool
  lamportTimestamp : Nat
  releaseSignal : Bool
deriving DecidableEq

/-- `ReleaseAccess` handler (peer.go lines 76-85): merge the timestamp, send
`true` on the `Release` channel, acknowledge. -/
def ReleaseAccess (n : NodeState) (req : ReleaseRequest) : ReleaseAccessResult :=
  let n1 := UpdateLamportClock n req.lamportTimestamp
  { node := n1
    acknowledged := true
    lamportTimestamp := n1.lamportClock
    releaseSignal := true }

/-- `SendReleaseMSG` (peer.go lines 195-204): issue a `ReleaseAccess` RPC to
`peerID` carrying `releaseTimestamp`; the RPC's response (whose timestamp
field is `respTimestamp`) is assigned to the blank identifier in the source
and never read, so the node state is returned unchanged. -/
def SendReleaseMSG (n : NodeState) (peerID : String)
    (releaseTimestamp respTimestamp : Nat) : NodeState × (String × ReleaseRequest) :=
  (n, (peerID, { nodeId := n.id, lamportTimestamp := releaseTimestamp }))

/-- Eventual outcome of the goroutine that `RequestCriticalSection` spawns for
one peer (peer.go lines 108-123): either the `RequestAccess` RPC fails with a
transport error (the goroutine immediately sends `false` into `responses`), or
it succeeds with a response carrying `respTimestamp`, after which the
goroutine merges that timestamp into the clock and forwards the next boolean
received on the node's `Release` channel (`releaseSignal`). -/
inductive PeerOutcome where
  | transportError
  | grantedRelease (respTimestamp : Nat) (releaseSignal : Bool)
deriving DecidableEq

/-- Clock effect of one peer outcome on the requesting node: a transport error
leaves the clock alone, a successful response is merged via
`UpdateLamportClock` (peer.go line 119). -/
def applyOutcome (m : NodeState) : PeerOutcome → NodeState
  | .transportError => m
  | .grantedRelease respTimestamp _ => UpdateLamportClock m respTimestamp

/-- The boolean that one peer outcome delivers into the `responses` channel:
`false` on a transport error, otherwise the value read from the `Release`
channel (peer.go lines 115 and 120). -/
def outcomeSignal : PeerOutcome → Bool
  | .transportError => false
  | .grantedRelease _ releaseSignal => releaseSignal

/-- Result of `ExecuteCriticalSection`: the node post-state, the single
release timestamp obtained from `GetLamportClock`, and the list of
`ReleaseAccess` RPCs sent while draining the deferred list, as pairs of
recipient id and carried timestamp. -/
structure CsResult where
  node : NodeState
  releaseTimestamp : Nat
  releaseMsgs : List (String × Nat)
deriving DecidableEq

/-- The drain loop of `ExecuteCriticalSection` (peer.go lines 155-163): while
the deferred list is non-empty, send `SendReleaseMSG(front, ..., ts)` and
remove the front; every message carries the same release timestamp. -/
def drainDeferred (ts : Nat) : List String → List (String × Nat)
  | [] => []
  | peerID :: rest => (peerID, ts) :: drainDeferred ts rest

/-- `ExecuteCriticalSection` (peer.go lines 140-164): raise `InCS`, run the CS
body (a sleep), lower `InCS` and `WantCS`, tick the clock once for the release
timestamp, then send one release message per entry of the deferred list and
empty it.  `CurrentRequest` is not touched anywhere in the method. -/
def ExecuteCriticalSection (n : NodeState) : CsResult :=
  let n1 := { n with inCS := true }
  let n2 := { n1 with inCS := false, wantCS := false }
  let n3 := GetLamportClock n2
  let releaseTimestamp := n3.lamportClock
  { node := { n3 with deferredResponses := [] }
    releaseTimestamp := releaseTimestamp
    releaseMsgs := drainDeferred releaseTimestamp n3.deferredResponses }

/-- Result of one `RequestCriticalSection` call: the node post-state, whether
`ExecuteCriticalSection` (the CS body) ran, the number of `true` values the
collection loop counted into `granted`, the number `needed` of peers it
waited for, and the release messages sent on CS exit. -/
structure AcquireResult where
  node : NodeState
  csEntered : Bool
  grantedCount : Nat
  neededCount : Nat
  releaseMsgs : List (String × Nat)
deriving DecidableEq

/-- `RequestCriticalSection` (peer.go lines 88-138), with `outcomes` the
eventual per-peer results of the fan-out, one entry per peer in `n.Peers`.
If the node already wants or holds the CS the call returns at once.
Otherwise it raises `WantCS`, ticks the clock, stamps `CurrentRequest` with
its own id and the new timestamp, zeroes `ResponseCount`, merges the clock
effect of every peer outcome, counts how many outcomes delivered `true`
into `granted` while `needed` is the peer count, and then — with no test of
`granted` against `needed` — calls `ExecuteCriticalSection`. -/
def RequestCriticalSection (n : NodeState) (outcomes : List PeerOutcome) : AcquireResult :=
  if n.inCS || n.wantCS then
    { node := n, csEntered := false, grantedCount := 0, neededCount := 0, releaseMsgs := [] }
  else
    let n1 := { n with wantCS := true }
    let n2 := GetLamportClock n1
    let timestamp := n2.lamportClock
    let n3 := { n2 with
      currentRequest := some { nodeId := n2.id, lamportTimestamp := timestamp }
      responseCount := 0 }
    let n4 := outcomes.foldl applyOutcome n3
    let granted := (outcomes.filter outcomeSignal).length
    let r := ExecuteCriticalSection n4
    { node := r.node
      csEntered := true
      grantedCount := granted
      neededCount := outcomes.length
      releaseMsgs := r.releaseMsgs }

/-- Updating the clock does not change the fields the defer decision reads. -/
theorem deferCond_updateClock (n : NodeState) (m : Nat) (req : AccessRequest) :
    deferCond (UpdateLamportClock n m) req = deferCond n req := rfl

/-- Merging peer outcomes into the clock leaves `inCS` unchanged. -/
theorem foldl_applyOutcome_inCS (outs : List PeerOutcome) (m : NodeState) :
    (outs.foldl applyOutcome m).inCS = m.inCS := by
  induction outs generalizing m with
  | nil => rfl
  | cons o rest ih =>
    rw [List.foldl_cons, ih (applyOutcome m o)]
    cases o <;> rfl

/-- Merging peer outcomes into the clock leaves `wantCS` unchanged. -/
theorem foldl_applyOutcome_wantCS (outs : List PeerOutcome) (m : NodeState) :
    (outs.foldl applyOutcome m).wantCS = m.wantCS := by
  induction outs generalizing m with
  | nil => rfl
  | cons o rest ih =>
    rw [List.foldl_cons, ih (applyOutcome m o)]
    cases o <;> rfl

/-- Merging peer outcomes into the clock leaves `currentRequest` unchanged. -/
theorem foldl_applyOutcome_currentRequest (outs : List PeerOutcome) (m : NodeState) :
    (outs.foldl applyOutcome m).currentRequest = m.currentRequest := by
  induction outs generalizing m with
  | nil => rfl
  | cons o rest ih =>
    rw [List.foldl_cons, ih (applyOutcome m o)]
    cases o <;> rfl

/-- The post-state of `ExecuteCriticalSection` has `InCS` lowered. -/
theorem ExecuteCriticalSection_node_inCS (n : NodeState) :
    (ExecuteCriticalSection n).node.inCS = false := rfl

/-- The post-state of `ExecuteCriticalSection` has `WantCS` lowered. -/
theorem ExecuteCriticalSection_node_wantCS (n : NodeState) :
    (ExecuteCriticalSection n).node.wantCS = false := rfl

/-- `ExecuteCriticalSection` never writes `CurrentRequest`. -/
theorem ExecuteCriticalSection_node_currentRequest (n : NodeState) :
    (ExecuteCriticalSection n).node.currentRequest = n.currentRequest := rfl

/-- The drain loop sends one message per deferred entry, all with the same
timestamp. -/
theorem drainDeferred_eq_map (ts : Nat) (l : List String) :
    drainDeferred ts l = l.map (fun id => (id, ts)) := by
  induction l with
  | nil => rfl
  | cons a rest ih => simp [drainDeferred, ih]

/-- The drain loop sends to an identity as many messages as the deferred list
has entries for it. -/
theorem count_drainDeferred (ts : Nat) (l : List String) (id : String) :
    (drainDeferred ts l).count (id, ts) = l.count id := by
  induction l with
  | nil => rfl
  | cons a rest ih =>
    by_cases he : a = id <;>
      simp [drainDeferred, List.count_cons, ih, he]

/-- C1: refuted by evaluation.  A RELEASED node (`InCS = false`,
`WantCS = false`) receiving the inbound request `(ts = 3, id = "node2")` does
not defer, yet the handler's response carries `granted = false`; the
permission is instead delivered by a separate `ReleaseAccess` RPC (the
deferred `SendReleaseMSG` call) issued after the response, contradicting the
claim that the non-deferred response has `granted = true`. -/
theorem C1_no_immediate_grant_in_response :
    deferCond (NewNode "node1" "addr1") { nodeId := "node2", lamportTimestamp := 3 } = false ∧
    (RequestAccess (NewNode "node1" "addr1")
        { nodeId := "node2", lamportTimestamp := 3 }).resp.granted = false ∧
    (RequestAccess (NewNode "node1" "addr1")
        { nodeId := "node2", lamportTimestamp := 3 }).releaseSent =
      some ("node2", { nodeId := "node1", lamportTimestamp := 4 }) :=
  ⟨rfl, rfl, rfl⟩

/-- C2: refuted by evaluation.  A RELEASED node with one peer whose
`RequestAccess` RPC fails with a transport error still runs
`ExecuteCriticalSection` (the CS body) once the collection loop has consumed
the single `false` outcome: `granted = 0` out of `needed = 1`, yet the CS is
entered, because the code never compares `granted` with `needed`.  The claim
that a transport error prevents CS entry is false on the code. -/
theorem C2_cs_entered_despite_transport_error :
    (RequestCriticalSection (NewNode "node1" "addr1")
        [PeerOutcome.transportError]).csEntered = true ∧
    (RequestCriticalSection (NewNode "node1" "addr1")
        [PeerOutcome.transportError]).grantedCount = 0 ∧
    (RequestCriticalSection (NewNode "node1" "addr1")
        [PeerOutcome.transportError]).neededCount = 1 :=
  ⟨rfl, rfl, rfl⟩

/-- C3: counterexample.  After one complete acquire/release cycle from the
initial state (one peer, which grants), the node is back in RELEASED
(`InCS = false`, `WantCS = false`) but `CurrentRequest` still holds the stale
request stamped at acquisition, because `ExecuteCriticalSection` never clears
it; the invariant `currentRequest present iff state different from RELEASED`
is violated. -/
theorem C3_counterexample_stale_currentRequest :
    (RequestCriticalSection (NewNode "node1" "addr1")
        [PeerOutcome.grantedRelease 4 true]).node.inCS = false ∧
    (RequestCriticalSection (NewNode "node1" "addr1")
        [PeerOutcome.grantedRelease 4 true]).node.wantCS = false ∧
    (RequestCriticalSection (NewNode "node1" "addr1")
        [PeerOutcome.grantedRelease 4 true]).node.currentRequest =
      some { nodeId := "node1", lamportTimestamp := 1 } :=
  ⟨rfl, rfl, rfl⟩

/-- C3 amended: on a RELEASED node, `RequestCriticalSection` stamps
`currentRequest` with the node's identity and the freshly ticked timestamp,
but after the complete cycle the node is RELEASED again while
`currentRequest` is still that stamped request — the release path does not
clear it. -/
theorem C3_amended_cycle_keeps_currentRequest (n : NodeState) (outs : List PeerOutcome)
    (h1 : n.inCS = false) (h2 : n.wantCS = false) :
    (RequestCriticalSection n outs).node.inCS = false ∧
    (RequestCriticalSection n outs).node.wantCS = false ∧
    (RequestCriticalSection n outs).node.currentRequest =
      some { nodeId := n.id, lamportTimestamp := (n.lamportClock + 1) % U64 } := by
  simp only [RequestCriticalSection, h1, h2, Bool.or_self, Bool.false_eq_true, if_false]
  refine ⟨ExecuteCriticalSection_node_inCS _, ExecuteCriticalSection_node_wantCS _, ?_⟩
  rw [ExecuteCriticalSection_node_currentRequest, foldl_applyOutcome_currentRequest]
  rfl

/-- C3 amended, witness: the amended statement evaluated on the initial node
with a single granting peer. -/
theorem C3_amended_witness :
    (NewNode "node1" "addr1").inCS = false ∧
    (NewNode "node1" "addr1").wantCS = false ∧
    ((RequestCriticalSection (NewNode "node1" "addr1")
        [PeerOutcome.grantedRelease 4 true]).node.inCS = false ∧
      (RequestCriticalSection (NewNode "node1" "addr1")
        [PeerOutcome.grantedRelease 4 true]).node.wantCS = false ∧
      (RequestCriticalSection (NewNode "node1" "addr1")
        [PeerOutcome.grantedRelease 4 true]).node.currentRequest =
        some { nodeId := (NewNode "node1" "addr1").id,
               lamportTimestamp := ((NewNode "node1" "addr1").lamportClock + 1) % U64 }) :=
  ⟨rfl, rfl, C3_amended_cycle_keeps_currentRequest _ _ rfl rfl⟩

/-- C4: counterexample.  A node holding the CS with `"node2"` already in the
deferred list, on a second request from `"node2"`, pushes the identity again:
the deferred list becomes `["node2", "node2"]`, so insertion is not an
idempotent no-op and the identity is pending twice. -/
theorem C4_counterexample_duplicate_insertion :
    (RequestAccess
        { NewNode "node1" "addr1" with inCS := true, deferredResponses := ["node2"] }
        { nodeId := "node2", lamportTimestamp := 3 }).node.deferredResponses =
      ["node2", "node2"] :=
  rfl

/-- C4 amended: the deferring branch of `RequestAccess` unconditionally
appends the requester at the back of the deferred list, with no membership
check, so an identity already present gains a second entry. -/
theorem C4_amended_insertion_appends (s : NodeState) (req : AccessRequest)
    (h : deferCond s req = true) :
    (RequestAccess s req).node.deferredResponses =
      s.deferredResponses ++ [req.nodeId] := by
  have h' : deferCond (UpdateLamportClock s req.lamportTimestamp) req = true := by
    rw [deferCond_updateClock]; exact h
  simp only [RequestAccess, h', if_true]
  rfl

/-- C4 amended, witness: the amended statement evaluated on a node holding
the CS with `"node2"` already deferred. -/
theorem C4_amended_witness :
    deferCond { NewNode "node1" "addr1" with inCS := true, deferredResponses := ["node2"] }
        { nodeId := "node2", lamportTimestamp := 3 } = true ∧
    (RequestAccess
        { NewNode "node1" "addr1" with inCS := true, deferredResponses := ["node2"] }
        { nodeId := "node2", lamportTimestamp := 3 }).node.deferredResponses =
      ({ NewNode "node1" "addr1" with inCS := true, deferredResponses := ["node2"] } : NodeState).deferredResponses ++ ["node2"] :=
  ⟨by decide, C4_amended_insertion_appends _ _ (by decide)⟩

/-- C5: counterexample.  `SendReleaseMSG` on a node with clock 0, issuing a
`ReleaseAccess` RPC whose response carries timestamp 10, leaves the clock at
0, whereas the max-then-increment merge of that returned timestamp would set
it to 11: the response of a `ReleaseAccess` RPC is discarded, not merged. -/
theorem C5_counterexample_release_response_discarded :
    (SendReleaseMSG (NewNode "node1" "addr1") "node2" 5 10).1.lamportClock = 0 ∧
    (UpdateLamportClock (NewNode "node1" "addr1") 10).lamportClock = 11 :=
  ⟨rfl, rfl⟩

/-- C5 amended: the timestamp of a `RequestAccess` response collected during
acquisition is merged into the clock via `UpdateLamportClock`, but
`SendReleaseMSG` returns the node unchanged — the `ReleaseAccess` response it
receives is assigned to the blank identifier and never merged. -/
theorem C5_amended_merge_only_for_access_responses (m n : NodeState)
    (rts respTs relTs : Nat) (sig : Bool) (peerID : String) :
    applyOutcome m (PeerOutcome.grantedRelease rts sig) = UpdateLamportClock m rts ∧
    (SendReleaseMSG n peerID relTs respTs).1 = n :=
  ⟨rfl, rfl⟩

/-- C6: counterexample.  On a RELEASED node the defer condition is false for
the inbound request `(ts = 7, id = "node2")`, yet the handler's response
still carries `granted = false` (and nothing is inserted into the deferred
list), refuting the biconditional `responds granted=false iff the node is
HELD or WANTED with a higher-priority own request`. -/
theorem C6_counterexample_granted_false_without_deferral :
    deferCond (NewNode "node1" "addr1") { nodeId := "node2", lamportTimestamp := 7 } = false ∧
    (RequestAccess (NewNode "node1" "addr1")
        { nodeId := "node2", lamportTimestamp := 7 }).resp.granted = false ∧
    (RequestAccess (NewNode "node1" "addr1")
        { nodeId := "node2", lamportTimestamp := 7 }).node.deferredResponses = [] :=
  ⟨rfl, rfl, rfl⟩

/-- C6 amended: the handler inserts `req`'s requester into the deferred list
if and only if the node is HELD, or WANTED with its own `currentRequest`
strictly higher priority than `req`; the response's `granted` field, however,
is false in both branches (in the non-deferred branch the grant is delivered
by a separate `ReleaseAccess` RPC issued after responding); and the defer
decision is a pure function of the `(inCS, wantCS, currentRequest)`
snapshot. -/
theorem C6_amended_defer_decision (s : NodeState) (req : AccessRequest) :
    (RequestAccess s req).node.deferredResponses =
      (if deferCond s req then s.deferredResponses ++ [req.nodeId]
        else s.deferredResponses) ∧
    (RequestAccess s req).resp.granted = false ∧
    deferCond s req = deferSnapshot s.inCS s.wantCS s.currentRequest req := by
  refine ⟨?_, ?_, rfl⟩
  · cases hd : deferCond s req with
    | true =>
      have hd' : deferCond (UpdateLamportClock s req.lamportTimestamp) req = true := by
        rw [deferCond_updateClock]; exact hd
      simp only [RequestAccess, hd', hd, if_true]
      rfl
    | false =>
      have hd' : deferCond (UpdateLamportClock s req.lamportTimestamp) req = false := by
        rw [deferCond_updateClock]; exact hd
      simp only [RequestAccess, hd', hd, Bool.false_eq_true, if_false]
      rfl
  · cases hd' : deferCond (UpdateLamportClock s req.lamportTimestamp) req with
    | true => simp only [RequestAccess, hd', if_true]
    | false => simp only [RequestAccess, hd', Bool.false_eq_true, if_false]

/-- Characterization of the comparator on non-nil requests: `r1` is the
strictly higher-priority request exactly when its timestamp is lower, or the
timestamps tie and its identity is lower. -/
theorem isHigherPriority_some_iff (r1 r2 : AccessRequest) :
    isHigherPriority (some r1) (some r2) = true ↔
      (r1.lamportTimestamp < r2.lamportTimestamp ∨
        (r1.lamportTimestamp = r2.lamportTimestamp ∧ r1.nodeId < r2.nodeId)) := by
  unfold isHigherPriority
  by_cases h : r1.lamportTimestamp = r2.lamportTimestamp <;> simp [h]

/-- C7: for non-nil requests with distinct `(timestamp, identity)` pairs,
exactly one direction of `isHigherPriority` holds (the Boolean values are
complementary), and the relation is transitive: lower timestamp wins, and on
equal timestamps the lower identity wins. -/
theorem C7_total_order (r1 r2 r3 : AccessRequest)
    (hne : (r1.lamportTimestamp, r1.nodeId) ≠ (r2.lamportTimestamp, r2.nodeId)) :
    isHigherPriority (some r1) (some r2) = !isHigherPriority (some r2) (some r1) ∧
    (isHigherPriority (some r1) (some r2) = true →
      isHigherPriority (some r2) (some r3) = true →
      isHigherPriority (some r1) (some r3) = true) := by
  have hne' : r1.lamportTimestamp ≠ r2.lamportTimestamp ∨ r1.nodeId ≠ r2.nodeId := by
    by_contra hc
    push_neg at hc
    exact hne (by rw [hc.1, hc.2])
  constructor
  · cases h21 : isHigherPriority (some r2) (some r1) with
    | true =>
      have hp21 := (isHigherPriority_some_iff r2 r1).mp h21
      have hfalse : isHigherPriority (some r1) (some r2) = false := by
        cases h12 : isHigherPriority (some r1) (some r2) with
        | false => rfl
        | true =>
          exfalso
          have hp12 := (isHigherPriority_some_iff r1 r2).mp h12
          rcases hp12 with h | ⟨he, hi⟩ <;> rcases hp21 with h' | ⟨he', hi'⟩
          · omega
          · omega
          · omega
          · exact absurd hi' (lt_asymm hi)
      rw [hfalse]
      rfl
    | false =>
      have hn : ¬(r2.lamportTimestamp < r1.lamportTimestamp ∨
          (r2.lamportTimestamp = r1.lamportTimestamp ∧ r2.nodeId < r1.nodeId)) := by
        rw [← isHigherPriority_some_iff]
        simp [h21]
      push_neg at hn
      have hgoal : isHigherPriority (some r1) (some r2) = true := by
        rw [isHigherPriority_some_iff]
        by_cases hts : r1.lamportTimestamp = r2.lamportTimestamp
        · rcases hne' with hts' | hid
          · exact absurd hts hts'
          · rcases hid.lt_or_lt with h | h
            · exact Or.inr ⟨hts, h⟩
            · exact absurd h (hn.2 hts.symm)
        · have h1 := hn.1
          left
          omega
      rw [hgoal]
      rfl
  · intro h12 h23
    have hp12 := (isHigherPriority_some_iff r1 r2).mp h12
    have hp23 := (isHigherPriority_some_iff r2 r3).mp h23
    rw [isHigherPriority_some_iff]
    rcases hp12 with h | ⟨he, hi⟩ <;> rcases hp23 with h' | ⟨he', hi'⟩
    · left; omega
    · left; omega
    · left; omega
    · exact Or.inr ⟨he.trans he', lt_trans hi hi'⟩

/-- C7, witness: the total-order statement evaluated on the concrete requests
`(ts=1, "a")`, `(ts=1, "b")` (a timestamp tie broken by identity) and
`(ts=2, "a")`. -/
theorem C7_total_order_witness :
    ((({ nodeId := "a", lamportTimestamp := 1 } : AccessRequest).lamportTimestamp,
        ({ nodeId := "a", lamportTimestamp := 1 } : AccessRequest).nodeId) ≠
      (({ nodeId := "b", lamportTimestamp := 1 } : AccessRequest).lamportTimestamp,
        ({ nodeId := "b", lamportTimestamp := 1 } : AccessRequest).nodeId)) ∧
    (isHigherPriority (some { nodeId := "a", lamportTimestamp := 1 })
        (some { nodeId := "b", lamportTimestamp := 1 }) =
      !isHigherPriority (some { nodeId := "b", lamportTimestamp := 1 })
        (some { nodeId := "a", lamportTimestamp := 1 }) ∧
    (isHigherPriority (some { nodeId := "a", lamportTimestamp := 1 })
        (some { nodeId := "b", lamportTimestamp := 1 }) = true →
      isHigherPriority (some { nodeId := "b", lamportTimestamp := 1 })
        (some { nodeId := "a", lamportTimestamp := 2 }) = true →
      isHigherPriority (some { nodeId := "a", lamportTimestamp := 1 })
        (some { nodeId := "a", lamportTimestamp := 2 }) = true)) :=
  ⟨by decide,
    C7_total_order { nodeId := "a", lamportTimestamp := 1 }
      { nodeId := "b", lamportTimestamp := 1 }
      { nodeId := "a", lamportTimestamp := 2 } (by decide)⟩

/-- C8: counterexample.  The clock is a Go `uint64`; at the wrap-around value
`2 ^ 64 - 1` the tick operation `GetLamportClock` sets the clock to 0, which
is strictly below the previous value, so `tick` does not return `c + 1` there
and the clock does decrease across a clock operation. -/
theorem C8_counterexample_clock_wraps :
    (GetLamportClock
        { NewNode "node1" "addr1" with lamportClock := U64 - 1 }).lamportClock = 0 ∧
    0 < ({ NewNode "node1" "addr1" with lamportClock := U64 - 1 } : NodeState).lamportClock := by
  constructor
  · show (U64 - 1 + 1) % U64 = 0
    have h : 0 < U64 := by decide
    rw [Nat.sub_add_cancel h]
    exact Nat.mod_self U64
  · decide

/-- C8 amended: below the `uint64` wrap-around bound the claim holds — tick
(`GetLamportClock`) sets the clock to `c + 1` and merge (`UpdateLamportClock`)
sets it to `max c m + 1`, each returning the new value, and neither operation
decreases the clock. -/
theorem C8_amended_clock_ops (n : NodeState) (m : Nat)
    (hc : n.lamportClock < U64 - 1) (hm : m < U64 - 1) :
    (GetLamportClock n).lamportClock = n.lamportClock + 1 ∧
    (UpdateLamportClock n m).lamportClock = max n.lamportClock m + 1 ∧
    n.lamportClock ≤ (GetLamportClock n).lamportClock ∧
    n.lamportClock ≤ (UpdateLamportClock n m).lamportClock := by
  have h1 : n.lamportClock + 1 < U64 := by omega
  have hg : (GetLamportClock n).lamportClock = n.lamportClock + 1 := by
    show (n.lamportClock + 1) % U64 = n.lamportClock + 1
    exact Nat.mod_eq_of_lt h1
  have hmax : (if n.lamportClock < m then m else n.lamportClock) = max n.lamportClock m := by
    rcases Nat.lt_or_ge n.lamportClock m with h | h
    · simp [h, Nat.max_eq_right (le_of_lt h)]
    · simp [Nat.not_lt.mpr h, Nat.max_eq_left h]
  have h2 : max n.lamportClock m + 1 < U64 := by
    have h3 := Nat.max_lt.mpr ⟨hc, hm⟩
    omega
  have hu : (UpdateLamportClock n m).lamportClock = max n.lamportClock m + 1 := by
    show ((if n.lamportClock < m then m else n.lamportClock) + 1) % U64 = _
    rw [hmax]
    exact Nat.mod_eq_of_lt h2
  refine ⟨hg, hu, ?_, ?_⟩
  · rw [hg]; omega
  · rw [hu]
    have h4 := Nat.le_max_left n.lamportClock m
    omega

/-- C8 amended, witness: the clock contract evaluated at clock 5 and received
timestamp 7, both far below the wrap-around bound. -/
theorem C8_amended_clock_ops_witness :
    ({ NewNode "node1" "addr1" with lamportClock := 5 } : NodeState).lamportClock < U64 - 1 ∧
    (7 : Nat) < U64 - 1 ∧
    ((GetLamportClock
        { NewNode "node1" "addr1" with lamportClock := 5 }).lamportClock =
      ({ NewNode "node1" "addr1" with lamportClock := 5 } : NodeState).lamportClock + 1 ∧
    (UpdateLamportClock { NewNode "node1" "addr1" with lamportClock := 5 } 7).lamportClock =
      max ({ NewNode "node1" "addr1" with lamportClock := 5 } : NodeState).lamportClock 7 + 1 ∧
    ({ NewNode "node1" "addr1" with lamportClock := 5 } : NodeState).lamportClock ≤
      (GetLamportClock { NewNode "node1" "addr1" with lamportClock := 5 }).lamportClock ∧
    ({ NewNode "node1" "addr1" with lamportClock := 5 } : NodeState).lamportClock ≤
      (UpdateLamportClock { NewNode "node1" "addr1" with lamportClock := 5 } 7).lamportClock) :=
  ⟨by decide, by decide,
    C8_amended_clock_ops { NewNode "node1" "addr1" with lamportClock := 5 } 7
      (by decide) (by decide)⟩

/-- C9: on CS exit the node ticks the clock exactly once to obtain the
release timestamp; provided the deferred list holds each identity at most
once (the spec's set model), every deferred identity receives exactly one
release message carrying that timestamp, every message sent goes to a
deferred identity with that timestamp, and the deferred list is empty
immediately afterwards. -/
theorem C9_release_flush (n : NodeState) (h : n.deferredResponses.Nodup) :
    (ExecuteCriticalSection n).releaseTimestamp = (n.lamportClock + 1) % U64 ∧
    (ExecuteCriticalSection n).node.lamportClock = (n.lamportClock + 1) % U64 ∧
    (∀ id ∈ n.deferredResponses,
      (ExecuteCriticalSection n).releaseMsgs.count
        (id, (ExecuteCriticalSection n).releaseTimestamp) = 1) ∧
    (∀ p ∈ (ExecuteCriticalSection n).releaseMsgs,
      p.1 ∈ n.deferredResponses ∧ p.2 = (ExecuteCriticalSection n).releaseTimestamp) ∧
    (ExecuteCriticalSection n).node.deferredResponses = [] := by
  have hmsgs : (ExecuteCriticalSection n).releaseMsgs =
      n.deferredResponses.map (fun id => (id, (n.lamportClock + 1) % U64)) := by
    show drainDeferred ((n.lamportClock + 1) % U64) n.deferredResponses = _
    exact drainDeferred_eq_map _ _
  refine ⟨rfl, rfl, ?_, ?_, rfl⟩
  · intro id hid
    have hcount : (ExecuteCriticalSection n).releaseMsgs.count
        (id, (n.lamportClock + 1) % U64) = n.deferredResponses.count id :=
      count_drainDeferred _ _ _
    rw [show (ExecuteCriticalSection n).releaseTimestamp =
      (n.lamportClock + 1) % U64 from rfl]
    rw [hcount]
    exact List.count_eq_one_of_mem h hid
  · intro p hp
    rw [hmsgs] at hp
    rcases List.mem_map.mp hp with ⟨id, hid, hpe⟩
    refine ⟨?_, ?_⟩
    · rw [← hpe]; exact hid
    · rw [← hpe]; rfl

/-- C9, witness: the flush contract evaluated on a node that exits the CS
with the two deferred identities `"node2"` and `"node3"`. -/
theorem C9_release_flush_witness :
    ({ NewNode "node1" "addr1" with inCS := true, lamportClock := 9, deferredResponses := ["node2", "node3"] } : NodeState).deferredResponses.Nodup ∧
    ((ExecuteCriticalSection { NewNode "node1" "addr1" with inCS := true, lamportClock := 9, deferredResponses := ["node2", "node3"] }).releaseTimestamp =
      (({ NewNode "node1" "addr1" with inCS := true, lamportClock := 9, deferredResponses := ["node2", "node3"] } : NodeState).lamportClock + 1) % U64 ∧
    (ExecuteCriticalSection { NewNode "node1" "addr1" with inCS := true, lamportClock := 9, deferredResponses := ["node2", "node3"] }).node.lamportClock =
      (({ NewNode "node1" "addr1" with inCS := true, lamportClock := 9, deferredResponses := ["node2", "node3"] } : NodeState).lamportClock + 1) % U64 ∧
    (∀ id ∈ ({ NewNode "node1" "addr1" with inCS := true, lamportClock := 9, deferredResponses := ["node2", "node3"] } : NodeState).deferredResponses,
      (ExecuteCriticalSection { NewNode "node1" "addr1" with inCS := true, lamportClock := 9, deferredResponses := ["node2", "node3"] }).releaseMsgs.count
        (id, (ExecuteCriticalSection { NewNode "node1" "addr1" with inCS := true, lamportClock := 9, deferredResponses := ["node2", "node3"] }).releaseTimestamp) = 1) ∧
    (∀ p ∈ (ExecuteCriticalSection { NewNode "node1" "addr1" with inCS := true, lamportClock := 9, deferredResponses := ["node2", "node3"] }).releaseMsgs,
      p.1 ∈ ({ NewNode "node1" "addr1" with inCS := true, lamportClock := 9, deferredResponses := ["node2", "node3"] } : NodeState).deferredResponses ∧
      p.2 = (ExecuteCriticalSection { NewNode "node1" "addr1" with inCS := true, lamportClock := 9, deferredResponses := ["node2", "node3"] }).releaseTimestamp) ∧
    (ExecuteCriticalSection { NewNode "node1" "addr1" with inCS := true, lamportClock := 9, deferredResponses := ["node2", "node3"] }).node.deferredResponses = []) :=
  ⟨by decide, C9_release_flush _ (by decide)⟩

/-- C10: the comparator returns false whenever either argument is the nil
pointer, and consequently a node whose `currentRequest` is absent never
defers on priority grounds: the defer decision degenerates to `InCS` alone
(the handler defers exactly when HELD), and the nil checks mean the handler
evaluates no field of the absent request. -/
theorem C10_nil_request_safe (r : Option AccessRequest) (s : NodeState)
    (req : AccessRequest) (h : s.currentRequest = none) :
    isHigherPriority none r = false ∧
    isHigherPriority r none = false ∧
    deferCond s req = s.inCS ∧
    (RequestAccess s req).node.deferredResponses =
      (if s.inCS then s.deferredResponses ++ [req.nodeId]
        else s.deferredResponses) := by
  have hdc : deferCond s req = s.inCS := by
    simp [deferCond, deferSnapshot, h, isHigherPriority]
  refine ⟨rfl, ?_, hdc, ?_⟩
  · cases r <;> rfl
  · cases hc : s.inCS with
    | true =>
      have hd' : deferCond (UpdateLamportClock s req.lamportTimestamp) req = true := by
        rw [deferCond_updateClock, hdc]; exact hc
      simp only [RequestAccess, hd', hc, if_true]
      rfl
    | false =>
      have hd' : deferCond (UpdateLamportClock s req.lamportTimestamp) req = false := by
        rw [deferCond_updateClock, hdc]; exact hc
      simp only [RequestAccess, hd', hc, Bool.false_eq_true, if_false]
      rfl

/-- C10, witness: the nil-safety statement evaluated on a node flagged WANTED
with `currentRequest` absent. -/
theorem C10_nil_request_safe_witness :
    ({ NewNode "node1" "addr1" with wantCS := true } : NodeState).currentRequest = none ∧
    (isHigherPriority none (some { nodeId := "node9", lamportTimestamp := 2 }) = false ∧
    isHigherPriority (some { nodeId := "node9", lamportTimestamp := 2 }) none = false ∧
    deferCond { NewNode "node1" "addr1" with wantCS := true }
      { nodeId := "node2", lamportTimestamp := 5 } =
      ({ NewNode "node1" "addr1" with wantCS := true } : NodeState).inCS ∧
    (RequestAccess { NewNode "node1" "addr1" with wantCS := true }
        { nodeId := "node2", lamportTimestamp := 5 }).node.deferredResponses =
      (if ({ NewNode "node1" "addr1" with wantCS := true } : NodeState).inCS then
          ({ NewNode "node1" "addr1" with wantCS := true } : NodeState).deferredResponses ++ ["node2"]
        else ({ NewNode "node1" "addr1" with wantCS := true } : NodeState).deferredResponses)) :=
  ⟨rfl, C10_nil_request_safe (some { nodeId := "node9", lamportTimestamp := 2 })
    { NewNode "node1" "addr1" with wantCS := true }
    { nodeId := "node2", lamportTimestamp := 5 } rfl⟩

end DistMutex
